import Mathlib

/-!
Verification development for the template registry.

The embedding models the store and service layers of the repository:
the Template entity with its composite unique constraint on the pair
of project identifier and alias, the TemplateService operations
(create_template, update_template, delete_template, get_template,
get_by_alias) and the request_build endpoint.

Modelling conventions:
- UUID identifiers become positive naturals allocated from a counter.
- The opaque config mapping becomes an association list.
- Exceptions become explicit error values; the database state after an
  operation is returned alongside the outcome, so a path on which the
  code never commits returns the store unchanged.
- Python truthiness tests on strings, mappings and optional values are
  translated literally: a value is falsy when it is None, the empty
  string, the empty mapping, or the zero identifier.
- Exception message strings are reproduced without the single-quote
  characters that surround interpolated values in the source.
-/

deriving instance DecidableEq for Except

namespace TemplateRegistry

/-- Owning project, the tenant boundary: a unique identifier and a
display name. -/
structure Project where
  id : Nat
  name : String
deriving DecidableEq

/-- Build template row. The entity merges the two model drafts
(fix-backend-models-template.py and fix-backend-db-template_model.py):
columns id, alias and project_id, plus the config and
dockerfile_content attributes that the service constructor and the
tests set on rows. -/
structure Template where
  id : Nat
  «alias» : String
  project_id : Nat
  config : List (String × String)
  dockerfile_content : Option String
deriving DecidableEq

/-- The relational store: the committed template rows together with the
identifier-generation counter. Fresh stores start the counter at 1 so
that every allocated identifier is truthy in the Python sense. -/
structure Store where
  rows : List Template
  nextId : Nat
deriving DecidableEq

/-- The declared composite unique constraint
UniqueConstraint(project_id, alias) of fix-backend-models-template.py
line 25 (equivalently the unique index idx_alias_project of
fix-backend-db-template_model.py line 25): a candidate pair is blocked
exactly when some row already carries it. -/
def hasProjectAlias (rows : List Template) (pid : Nat) (a : String) : Bool :=
  rows.any (fun r => r.project_id == pid && r.alias == a)

/-- Storage-level error: the IntegrityError raised when an insert
violates the composite unique constraint. -/
inductive DBError where
  | constraintViolation
deriving DecidableEq

/-- Storage-level insert of a fully-built row, enforcing the composite
unique constraint independently of any application pre-check. This is
the effect of session.add followed by flush in the service code. -/
def insertRow (s : Store) (t : Template) : Except DBError Store :=
  if hasProjectAlias s.rows t.project_id t.alias then
    .error .constraintViolation
  else
    .ok { rows := s.rows ++ [t], nextId := s.nextId }

/-- Raw storage insert that also allocates the generated identifier,
bypassing every application-layer pre-check. Used to describe the
states reachable through the storage layer alone. -/
def storeInsert (s : Store) (a : String) (pid : Nat)
    (cfg : List (String × String)) (dfc : Option String) :
    Except DBError (Template × Store) :=
  match insertRow { rows := s.rows, nextId := s.nextId + 1 } ⟨s.nextId, a, pid, cfg, dfc⟩ with
  | .error e => .error e
  | .ok s2 => .ok (⟨s.nextId, a, pid, cfg, dfc⟩, s2)

/-- Raw storage delete by primary key: physical removal of the row with
the given identifier. -/
def storeDelete (s : Store) (tid : Nat) : Store :=
  { rows := s.rows.filter (fun r => r.id != tid), nextId := s.nextId }

/-- Store states reachable through the storage layer alone: the empty
store, a constraint-checked insert, or a delete. The application
pre-check is deliberately absent from these steps. -/
inductive Reachable : Store → Prop where
  | empty : Reachable ⟨[], 1⟩
  | insert {s a pid cfg dfc t s2} : Reachable s →
      storeInsert s a pid cfg dfc = .ok (t, s2) → Reachable s2
  | del {s} (tid : Nat) : Reachable s → Reachable (storeDelete s tid)

/-- The core invariant: no two rows of the store share both the project
identifier and the alias. -/
def PairUnique (s : Store) : Prop :=
  s.rows.Pairwise (fun a b => a.project_id ≠ b.project_id ∨ a.alias ≠ b.alias)

/-- Well-formedness of identifiers: pairwise distinct and positive. -/
def IdsOk (s : Store) : Prop :=
  s.rows.Pairwise (fun a b => a.id ≠ b.id) ∧ ∀ r ∈ s.rows, 1 ≤ r.id

/-- Template.get_by_project_and_alias of
fix-backend-models-template.py lines 36 to 52: first row filtered by
project and alias, or none. -/
def get_by_project_and_alias (s : Store) (pid : Nat) (a : String) : Option Template :=
  s.rows.find? (fun r => r.project_id == pid && r.alias == a)

/-- Template.alias_exists_in_project of
fix-backend-models-template.py lines 54 to 76: filter by project and
alias, then, when exclude_id is truthy, drop the row with that
identifier; report whether any row remains. The Python guard
`if exclude_id:` is falsy both for None and for a zero identifier,
which the translation reproduces. -/
def alias_exists_in_project (s : Store) (pid : Nat) (a : String)
    (exclude_id : Option Nat) : Bool :=
  let q := s.rows.filter (fun r => r.project_id == pid && r.alias == a)
  let q2 := match exclude_id with
    | some e => if e != 0 then q.filter (fun (r : Template) => r.id != e) else q
    | none => q
  !q2.isEmpty

/-- Service-level error outcomes. valueError carries the exception
message; integrityError stands for a raw storage IntegrityError
propagating uncaught out of the service; startBuildRaised stands for
an arbitrary exception raised by build_system.start_build propagating
out of create_template. -/
inductive ServiceError where
  | valueError (msg : String)
  | integrityError
  | startBuildRaised
deriving DecidableEq

/-- TemplateService.create_template of
fix-backend-services-template_service.py lines 24 to 71, with the
check-then-insert seam made explicit: the application pre-check reads
sCheck while the insert runs against sInsert, so a concurrent writer
between the two is modelled by sCheck and sInsert differing. The
returned store is the committed database state after the call: the
original sInsert on the pre-check failure path, after the rollback in
the IntegrityError handler, and on the path where start_build raises
before commit; the grown store only when commit is reached. The
buildOk flag tells whether build_system.start_build returns normally. -/
def create_template_from (sCheck sInsert : Store) (project : Project)
    (a : String) (config : List (String × String))
    (dockerfile_content : Option String) (buildOk : Bool) :
    (Except ServiceError Template) × Store :=
  if alias_exists_in_project sCheck project.id a none then
    (.error (.valueError ("Alias " ++ a ++ " already exists in project " ++ project.name)),
     sInsert)
  else
    let t : Template := ⟨sInsert.nextId, a, project.id, config, dockerfile_content⟩
    match insertRow { rows := sInsert.rows, nextId := sInsert.nextId + 1 } t with
    | .error .constraintViolation =>
        (.error (.valueError ("Alias " ++ a ++ " already exists in project")), sInsert)
    | .ok s2 =>
        if buildOk then (.ok t, s2) else (.error .startBuildRaised, sInsert)

/-- TemplateService.create_template run sequentially: pre-check and
insert observe the same store. -/
def create_template (s : Store) (project : Project) (a : String)
    (config : List (String × String)) (dockerfile_content : Option String)
    (buildOk : Bool) : (Except ServiceError Template) × Store :=
  create_template_from s s project a config dockerfile_content buildOk

/-- TemplateService.update_template of
fix-backend-services-template_service.py lines 73 to 112. The guard
`if alias and alias != template.alias:` applies the rename only for a
truthy alias differing from the current one, re-checking uniqueness
with the own identifier excluded; the guard `if config:` applies the
config only when truthy. The error paths return before any row is
mutated, so they leave the store unchanged. -/
def update_template (s : Store) (project : Project) (template_id : Nat)
    (aliasArg : Option String) (configArg : Option (List (String × String))) :
    (Except ServiceError Template) × Store :=
  match s.rows.find? (fun r => r.id == template_id && r.project_id == project.id) with
  | none => (.error (.valueError "Template not found in project"), s)
  | some template =>
    let aliasApplies := match aliasArg with
      | some b => b != "" && b != template.alias
      | none => false
    if aliasApplies && alias_exists_in_project s project.id (aliasArg.getD "")
        (some template.id) then
      (.error (.valueError ("Alias " ++ aliasArg.getD "" ++ " already exists in project")), s)
    else
      let t1 := if aliasApplies then { template with «alias» := aliasArg.getD "" } else template
      let t2 := match configArg with
        | some c => if c.isEmpty then t1 else { t1 with config := c }
        | none => t1
      (.ok t2,
       { rows := s.rows.map (fun r => if r.id == template.id then t2 else r),
         nextId := s.nextId })

/-- TemplateService.delete_template of
fix-backend-services-template_service.py lines 114 to 136: project
scoped lookup, false when absent, physical removal and commit when
present. -/
def delete_template (s : Store) (project : Project) (template_id : Nat) :
    Bool × Store :=
  match s.rows.find? (fun r => r.id == template_id && r.project_id == project.id) with
  | none => (false, s)
  | some t =>
      (true, { rows := s.rows.filter (fun r => r.id != t.id), nextId := s.nextId })

/-- TemplateService.get_template of
fix-backend-services-template_service.py lines 138 to 151: lookup by
identifier scoped to the project. -/
def get_template (s : Store) (project : Project) (template_id : Nat) :
    Option Template :=
  s.rows.find? (fun r => r.id == template_id && r.project_id == project.id)

/-- TemplateService.get_by_alias of
fix-backend-services-template_service.py lines 153 to 165. -/
def get_by_alias (s : Store) (project : Project) (a : String) : Option Template :=
  get_by_project_and_alias s project.id a

/-- Request body of the build endpoint. -/
structure BuildRequest where
  «alias» : String
  config : List (String × String)
  dockerfile_content : Option String
  force_rebuild : Bool
deriving DecidableEq

/-- Observable outcome of the build endpoint: the success response or
an HTTPException with status code and detail. -/
inductive BuildOutcome where
  | ok (template_id : Nat) (status : String) (message : String)
  | httpError (status_code : Nat) (detail : String)
deriving DecidableEq

/-- request_build of fix-backend-api-template_build.py lines 19 to 74.
Two behaviours of the source decide the shape of the existing-template
branches. First, when the alias is taken and force_rebuild is false,
the code raises HTTPException(400) with a detail naming the alias and
the project, but the raise sits inside the try block whose final
clause catches every Exception, HTTPException included, and replaces
it with HTTPException(500) carrying the generic detail; the caller
therefore observes the 500. Second, when force_rebuild is true, the
code evaluates TemplateService.delete_template(db, existing.id),
calling the instance method with the Session bound as self; the
attribute access self.db inside delete_template raises AttributeError
before any row is read or removed, and the same blanket clause turns
it into the generic 500; the store is untouched. On the free-alias
path the endpoint delegates to create_template; a ValueError from it
is likewise caught by the blanket clause and becomes the generic 500,
while an IntegrityError would be caught by the dedicated clause and
become a 400 with the integrity detail. -/
def request_build (s : Store) (project : Project) (req : BuildRequest)
    (buildOk : Bool) : BuildOutcome × Store :=
  match get_by_project_and_alias s project.id req.alias with
  | some _ =>
      if req.force_rebuild then
        (.httpError 500 "Internal server error during template build", s)
      else
        (.httpError 500 "Internal server error during template build", s)
  | none =>
      match create_template s project req.alias req.config req.dockerfile_content buildOk with
      | (.ok t, s2) =>
          (.ok t.id "building" "Template build started successfully", s2)
      | (.error .integrityError, s2) =>
          (.httpError 400 "Template build failed due to data integrity constraints", s2)
      | (.error _, s2) =>
          (.httpError 500 "Internal server error during template build", s2)

/-! Helper lemmas. -/

/-- Absence of a blocking row, phrased elementwise. -/
theorem hasProjectAlias_false_iff (rows : List Template) (pid : Nat) (a : String) :
    hasProjectAlias rows pid a = false ↔
      ∀ r ∈ rows, r.project_id = pid → r.alias ≠ a := by
  simp [hasProjectAlias, List.any_eq_false]

/-- Presence of a blocking row, phrased elementwise. -/
theorem hasProjectAlias_true_iff (rows : List Template) (pid : Nat) (a : String) :
    hasProjectAlias rows pid a = true ↔
      ∃ r ∈ rows, r.project_id = pid ∧ r.alias = a := by
  simp [hasProjectAlias, List.any_eq_true]

/-- Without an exclusion the existence check agrees with the unique
constraint predicate. -/
theorem alias_exists_none_eq (s : Store) (pid : Nat) (a : String) :
    alias_exists_in_project s pid a none = hasProjectAlias s.rows pid a := by
  cases hb : hasProjectAlias s.rows pid a with
  | false =>
      have h := (hasProjectAlias_false_iff s.rows pid a).mp hb
      simp only [alias_exists_in_project, Bool.not_eq_false']
      rw [List.isEmpty_iff]
      rw [List.filter_eq_nil_iff]
      intro r hr
      simp only [Bool.and_eq_true, beq_iff_eq, not_and]
      exact h r hr
  | true =>
      obtain ⟨r, hr, hp, ha⟩ := (hasProjectAlias_true_iff s.rows pid a).mp hb
      simp only [alias_exists_in_project, Bool.not_eq_true']
      rw [List.isEmpty_eq_false_iff_exists_mem]
      refine ⟨r, ?_⟩
      rw [List.mem_filter]
      exact ⟨hr, by simp [hp, ha]⟩

/-- With a truthy exclusion the existence check reports a row of the
project carrying the alias whose identifier differs from the excluded
one. -/
theorem alias_exists_some_iff (s : Store) (pid : Nat) (a : String) (e : Nat)
    (he : e ≠ 0) :
    alias_exists_in_project s pid a (some e) = true ↔
      ∃ r ∈ s.rows, r.project_id = pid ∧ r.alias = a ∧ r.id ≠ e := by
  have hbe : (e != 0) = true := by simpa using he
  simp only [alias_exists_in_project, hbe, if_true, Bool.not_eq_true',
    List.isEmpty_eq_false_iff_exists_mem, List.mem_filter, Bool.and_eq_true,
    beq_iff_eq, bne_iff_ne, ne_eq]
  tauto

/-- The composite unique constraint preserves the invariant on every
successful raw insert. -/
theorem pairUnique_insertRow {s : Store} {t : Template} {s2 : Store}
    (hins : insertRow s t = .ok s2) (hU : PairUnique s) : PairUnique s2 := by
  unfold insertRow at hins
  by_cases hg : hasProjectAlias s.rows t.project_id t.alias = true
  · rw [if_pos hg] at hins; cases hins
  · rw [if_neg hg] at hins
    cases hins
    unfold PairUnique
    rw [List.pairwise_append]
    refine ⟨hU, List.pairwise_singleton _ _, ?_⟩
    intro r hr b hb
    rw [List.mem_singleton] at hb
    rw [hb]
    have hall := (hasProjectAlias_false_iff s.rows t.project_id t.alias).mp
      (Bool.eq_false_iff.mpr hg)
    by_cases hp : r.project_id = t.project_id
    · exact Or.inr (hall r hr hp)
    · exact Or.inl hp

/-- Invariant preservation for the identifier-allocating raw insert. -/
theorem pairUnique_storeInsert {s : Store} {a : String} {pid : Nat}
    {cfg : List (String × String)} {dfc : Option String} {t : Template}
    {s2 : Store} (hins : storeInsert s a pid cfg dfc = .ok (t, s2))
    (hU : PairUnique s) : PairUnique s2 := by
  unfold storeInsert at hins
  cases hrow : insertRow { rows := s.rows, nextId := s.nextId + 1 }
      ⟨s.nextId, a, pid, cfg, dfc⟩ with
  | error e => rw [hrow] at hins; cases hins
  | ok s3 =>
      rw [hrow] at hins
      cases hins
      exact pairUnique_insertRow hrow hU

/-- Invariant preservation for the raw delete. -/
theorem pairUnique_storeDelete {s : Store} (tid : Nat) (hU : PairUnique s) :
    PairUnique (storeDelete s tid) :=
  List.Pairwise.sublist (List.filter_sublist s.rows) hU

/-- First template of the cross-project example state. -/
def tWeb1 : Template := ⟨1, "web", 1, [], none⟩

/-- Second template of the cross-project example state: the same alias
under another project. -/
def tWeb2 : Template := ⟨2, "web", 2, [], none⟩

/-- Store holding the same alias in two different projects. -/
def sTwoProjects : Store := ⟨[tWeb1, tWeb2], 3⟩

/-- The cross-project example state arises from two raw inserts. -/
theorem reachable_sTwoProjects : Reachable sTwoProjects := by
  have h0 : Reachable ⟨[], 1⟩ := .empty
  have h1 : Reachable ⟨[tWeb1], 2⟩ :=
    @Reachable.insert ⟨[], 1⟩ "web" 1 [] none tWeb1 ⟨[tWeb1], 2⟩ h0 (by rfl)
  exact @Reachable.insert ⟨[tWeb1], 2⟩ "web" 2 [] none tWeb2 sTwoProjects h1 (by rfl)

/-- C1: every store state reachable through the storage layer alone,
with no application pre-check involved, satisfies uniqueness of the
pair of project identifier and alias across rows, because the
composite unique constraint rejects a duplicating insert; and the
alias alone is not constrained, witnessed by a reachable state holding
the same alias in two projects. -/
theorem C1_storage_uniqueness :
    (∀ s, Reachable s → PairUnique s) ∧
    (∃ s, Reachable s ∧ ∃ t1 ∈ s.rows, ∃ t2 ∈ s.rows,
      t1 ≠ t2 ∧ t1.alias = t2.alias ∧ t1.project_id ≠ t2.project_id) := by
  constructor
  · intro s h
    induction h with
    | empty => exact List.Pairwise.nil
    | insert hr hins ih => exact pairUnique_storeInsert hins ih
    | del tid hr ih => exact pairUnique_storeDelete tid ih
  · refine ⟨sTwoProjects, reachable_sTwoProjects, tWeb1, ?_, tWeb2, ?_, ?_, ?_, ?_⟩
    · simp [sTwoProjects]
    · simp [sTwoProjects]
    · decide
    · rfl
    · decide

/-- Witness for C1: the invariant evaluated on the concrete reachable
two-project state. -/
theorem C1_storage_uniqueness_witness : PairUnique sTwoProjects :=
  C1_storage_uniqueness.1 sTwoProjects reachable_sTwoProjects

/-- C2: no execution of create_template surfaces a raw storage
IntegrityError, and on every execution where the insert hits the
composite unique constraint although the pre-check passed, because the
store changed between the pre-check read and the insert, the outcome
is the alias conflict ValueError produced by the IntegrityError
handler of the service. -/
theorem C2_constraint_violation_translated :
    (∀ (sCheck sInsert : Store) (proj : Project) (a : String)
        (cfg : List (String × String)) (dfc : Option String) (buildOk : Bool),
      (create_template_from sCheck sInsert proj a cfg dfc buildOk).1 ≠
        .error .integrityError) ∧
    (∀ (sCheck sInsert : Store) (proj : Project) (a : String)
        (cfg : List (String × String)) (dfc : Option String) (buildOk : Bool),
      alias_exists_in_project sCheck proj.id a none = false →
      hasProjectAlias sInsert.rows proj.id a = true →
      (create_template_from sCheck sInsert proj a cfg dfc buildOk).1 =
        .error (.valueError ("Alias " ++ a ++ " already exists in project"))) := by
  constructor
  · intro sC sI proj a cfg dfc b
    by_cases h1 : alias_exists_in_project sC proj.id a none = true
    · simp [create_template_from, h1]
    · rw [Bool.not_eq_true] at h1
      cases hrow : insertRow { rows := sI.rows, nextId := sI.nextId + 1 }
          ⟨sI.nextId, a, proj.id, cfg, dfc⟩ with
      | error e => cases e; cases b <;> simp [create_template_from, h1, hrow]
      | ok s2 => cases b <;> simp [create_template_from, h1, hrow]
  · intro sC sI proj a cfg dfc b h1 h2
    have hrow : insertRow { rows := sI.rows, nextId := sI.nextId + 1 }
        ⟨sI.nextId, a, proj.id, cfg, dfc⟩ = .error .constraintViolation := by
      simp [insertRow, h2]
    simp [create_template_from, h1, hrow]

/-- Witness for C2: the pre-check sees an empty store, a row with the
pair appears before the insert, and the caller receives the translated
conflict error. -/
theorem C2_constraint_violation_translated_witness :
    (create_template_from ⟨[], 1⟩ ⟨[⟨1, "web", 1, [], none⟩], 2⟩ ⟨1, "P"⟩
        "web" [] none true).1 =
      .error (.valueError ("Alias " ++ "web" ++ " already exists in project")) :=
  C2_constraint_violation_translated.2 ⟨[], 1⟩ ⟨[⟨1, "web", 1, [], none⟩], 2⟩
    ⟨1, "P"⟩ "web" [] none true (by rfl) (by rfl)

/-- C3: creation is scoped to the calling project: whenever another
project holds the alias but the calling project does not, the create
succeeds, appending a row carrying the alias under the calling
project. -/
theorem C3_alias_scoped_to_project :
    ∀ (s : Store) (p1id : Nat) (proj2 : Project) (a : String)
      (cfg : List (String × String)) (dfc : Option String),
      p1id ≠ proj2.id →
      hasProjectAlias s.rows p1id a = true →
      hasProjectAlias s.rows proj2.id a = false →
      ∃ t : Template,
        (create_template s proj2 a cfg dfc true).1 = .ok t ∧
        t.alias = a ∧ t.project_id = proj2.id ∧
        (create_template s proj2 a cfg dfc true).2.rows = s.rows ++ [t] := by
  intro s p1id proj2 a cfg dfc hne hp1 hp2
  refine ⟨⟨s.nextId, a, proj2.id, cfg, dfc⟩, ?_, rfl, rfl, ?_⟩ <;>
    simp [create_template, create_template_from, insertRow,
      alias_exists_none_eq, hp2]

/-- Witness for C3: with the alias web occupied in project 1, creating
it in project 2 succeeds. -/
theorem C3_alias_scoped_to_project_witness :
    ∃ t : Template,
      (create_template ⟨[⟨1, "web", 1, [], none⟩], 2⟩ ⟨2, "Test Project 2"⟩
          "web" [] none true).1 = .ok t ∧
      t.alias = "web" ∧ t.project_id = 2 ∧
      (create_template ⟨[⟨1, "web", 1, [], none⟩], 2⟩ ⟨2, "Test Project 2"⟩
          "web" [] none true).2.rows = [⟨1, "web", 1, [], none⟩] ++ [t] :=
  C3_alias_scoped_to_project ⟨[⟨1, "web", 1, [], none⟩], 2⟩ 1
    ⟨2, "Test Project 2"⟩ "web" [] none (by decide) (by rfl) (by rfl)

/-- Concrete project used by the endpoint evaluations. -/
def projOne : Project := ⟨1, "Test Project 1"⟩

/-- Build request for alias web without forced rebuild. -/
def reqWeb : BuildRequest := ⟨"web", [], none, false⟩

/-- Build request for alias web with forced rebuild. -/
def reqWebForce : BuildRequest := ⟨"web", [], none, true⟩

/-- Store after one successful build request for alias web. -/
def sAfterFirst : Store := (request_build ⟨[], 1⟩ projOne reqWeb true).2

/-- C4: evaluation of the duplicate-create scenario. The first request
succeeds; the second identical request with force_rebuild false leaves
the store exactly as it was, but the observable outcome is the generic
HTTPException 500, because the HTTPException 400 naming the occupied
alias and the project is raised inside the try block and the blanket
except Exception clause of request_build replaces it. The repository
test test_duplicate_alias_same_project_fails expects status 400 with a
detail containing already taken, which this execution contradicts. -/
theorem C4_duplicate_create_observed_as_500 :
    (request_build ⟨[], 1⟩ projOne reqWeb true).1 =
      .ok 1 "building" "Template build started successfully" ∧
    sAfterFirst.rows = [⟨1, "web", 1, [], none⟩] ∧
    request_build sAfterFirst projOne reqWeb true =
      (.httpError 500 "Internal server error during template build", sAfterFirst) :=
  ⟨rfl, rfl, rfl⟩

/-- C5: evaluation of the forced-rebuild scenario. With alias web
occupied, the request with force_rebuild true fails with the generic
HTTPException 500 and the store is untouched: the call
TemplateService.delete_template(db, existing.id) binds the Session as
self, the attribute access self.db raises AttributeError before any
deletion, and the blanket except Exception clause maps it to 500. The
prior row still resolves through get_template and no replacement row
is created, while the repository test
test_force_rebuild_updates_template expects success with a fresh
identifier. -/
theorem C5_force_rebuild_crashes_before_delete :
    request_build sAfterFirst projOne reqWebForce true =
      (.httpError 500 "Internal server error during template build", sAfterFirst) ∧
    get_template sAfterFirst projOne 1 = some ⟨1, "web", 1, [], none⟩ ∧
    get_by_alias sAfterFirst projOne "web" = some ⟨1, "web", 1, [], none⟩ :=
  ⟨rfl, rfl, rfl⟩

/-- On every failing execution of create_template the committed store
is unchanged. -/
theorem create_template_error_store {s : Store} {proj : Project} {a : String}
    {cfg : List (String × String)} {dfc : Option String} {b : Bool}
    {e : ServiceError}
    (h : (create_template s proj a cfg dfc b).1 = .error e) :
    (create_template s proj a cfg dfc b).2 = s := by
  unfold create_template create_template_from at h ⊢
  by_cases h1 : alias_exists_in_project s proj.id a none = true
  · simp [h1]
  · rw [Bool.not_eq_true] at h1
    cases hrow : insertRow { rows := s.rows, nextId := s.nextId + 1 }
        ⟨s.nextId, a, proj.id, cfg, dfc⟩ with
    | error e2 => cases e2; simp [h1, hrow]
    | ok s2 => cases b <;> simp [h1, hrow] at h ⊢

/-- On every failing execution of update_template the committed store
is unchanged. -/
theorem update_template_error_store {s : Store} {proj : Project} {tid : Nat}
    {al : Option String} {cf : Option (List (String × String))}
    {e : ServiceError}
    (h : (update_template s proj tid al cf).1 = .error e) :
    (update_template s proj tid al cf).2 = s := by
  cases hf : s.rows.find? (fun r => r.id == tid && r.project_id == proj.id) with
  | none => simp [update_template, hf]
  | some T =>
      cases al with
      | none => simp [update_template, hf] at h
      | some B =>
          by_cases hb : (B != "" && B != T.alias) = true
          · by_cases hex :
                alias_exists_in_project s proj.id B (some T.id) = true
            · simp [update_template, hf, hb, hex]
            · rw [Bool.not_eq_true] at hex
              simp [update_template, hf, hb, hex] at h
          · rw [Bool.not_eq_true] at hb
            simp [update_template, hf, hb] at h

/-- A false result of delete_template leaves the committed store
unchanged. -/
theorem delete_template_false_store {s : Store} {proj : Project} {tid : Nat}
    (h : (delete_template s proj tid).1 = false) :
    (delete_template s proj tid).2 = s := by
  unfold delete_template at h ⊢
  cases hf : s.rows.find? (fun r => r.id == tid && r.project_id == proj.id) with
  | none => simp [hf]
  | some T => simp [hf] at h

/-- On every failing execution of request_build the committed store is
unchanged. -/
theorem request_build_error_store {s : Store} {proj : Project}
    {req : BuildRequest} {b : Bool} {code : Nat} {detail : String}
    (h : (request_build s proj req b).1 = .httpError code detail) :
    (request_build s proj req b).2 = s := by
  unfold request_build at h ⊢
  cases hg : get_by_project_and_alias s proj.id req.alias with
  | some t => simp [hg]
  | none =>
      cases hc : create_template s proj req.alias req.config
          req.dockerfile_content b with
      | mk r s2 =>
          cases r with
          | ok t => simp [hg, hc] at h
          | error e =>
              have hs2 : s2 = s := by
                have h1 : (create_template s proj req.alias req.config
                    req.dockerfile_content b).1 = .error e := by rw [hc]
                have := create_template_error_store h1
                rw [hc] at this
                exact this
              cases e <;> simp [hg, hc, hs2]

/-- C6: every failure path of the mutating operations rolls back
cleanly: a create whose outcome is an error, an update whose outcome
is an error, a build request answered with an HTTP error, and a delete
returning false all leave the committed store exactly as it was before
the call; in particular no execution deletes a prior row without
committing a replacement and no execution commits a partial update. -/
theorem C6_failure_leaves_store_unchanged :
    (∀ (s : Store) (proj : Project) (a : String)
        (cfg : List (String × String)) (dfc : Option String) (b : Bool)
        (e : ServiceError),
      (create_template s proj a cfg dfc b).1 = .error e →
      (create_template s proj a cfg dfc b).2 = s) ∧
    (∀ (s : Store) (proj : Project) (tid : Nat) (al : Option String)
        (cf : Option (List (String × String))) (e : ServiceError),
      (update_template s proj tid al cf).1 = .error e →
      (update_template s proj tid al cf).2 = s) ∧
    (∀ (s : Store) (proj : Project) (req : BuildRequest) (b : Bool)
        (code : Nat) (detail : String),
      (request_build s proj req b).1 = .httpError code detail →
      (request_build s proj req b).2 = s) ∧
    (∀ (s : Store) (proj : Project) (tid : Nat),
      (delete_template s proj tid).1 = false →
      (delete_template s proj tid).2 = s) :=
  ⟨fun _ _ _ _ _ _ _ h => create_template_error_store h,
   fun _ _ _ _ _ _ h => update_template_error_store h,
   fun _ _ _ _ _ _ h => request_build_error_store h,
   fun _ _ _ h => delete_template_false_store h⟩

/-- Witness for C6: concrete failing executions of each operation
leave their stores unchanged. -/
theorem C6_failure_leaves_store_unchanged_witness :
    (create_template ⟨[], 1⟩ projOne "web" [] none false).2 = ⟨[], 1⟩ ∧
    (update_template ⟨[], 1⟩ projOne 7 none none).2 = ⟨[], 1⟩ ∧
    (request_build sAfterFirst projOne reqWeb true).2 = sAfterFirst ∧
    (delete_template ⟨[], 1⟩ projOne 7).2 = ⟨[], 1⟩ :=
  ⟨C6_failure_leaves_store_unchanged.1 ⟨[], 1⟩ projOne "web" [] none false
      .startBuildRaised (by rfl),
   C6_failure_leaves_store_unchanged.2.1 ⟨[], 1⟩ projOne 7 none none
      (.valueError "Template not found in project") (by rfl),
   C6_failure_leaves_store_unchanged.2.2.1 sAfterFirst projOne reqWeb true
      500 "Internal server error during template build" (by rfl),
   C6_failure_leaves_store_unchanged.2.2.2 ⟨[], 1⟩ projOne 7 (by rfl)⟩

instance (s : Store) : Decidable (PairUnique s) := by
  unfold PairUnique
  infer_instance

instance (s : Store) : Decidable (IdsOk s) := by
  unfold IdsOk
  infer_instance

/-- Rows with pairwise distinct identifiers admit at most one row per
identifier. -/
theorem ids_unique_replace {s : Store} {T : Template} (hI : IdsOk s)
    (hT : T ∈ s.rows) : ∀ r ∈ s.rows, r.id = T.id → r = T := by
  intro r hr hid
  by_cases hrT : r = T
  · exact hrT
  · exact absurd hid
      (hI.1.forall (fun x y hxy => hxy.symm) hr hT hrT)

/-- Replacing the unique row carrying an identifier by itself is the
identity on the row list. -/
theorem map_replace_self {rows : List Template} {T : Template}
    (h : ∀ r ∈ rows, r.id = T.id → r = T) :
    rows.map (fun r => if r.id = T.id then T else r) = rows := by
  induction rows with
  | nil => rfl
  | cons x xs ih =>
      have hx : (if x.id = T.id then T else x) = x := by
        by_cases hex : x.id = T.id
        · simp [hex, (h x (List.mem_cons_self x xs) hex).symm]
        · simp [hex]
      simp only [List.map_cons, hx]
      rw [ih (fun r hr hid => h r (List.mem_cons_of_mem x hr) hid)]

/-- Store with two templates of project 1 under distinct aliases. -/
def sRename : Store := ⟨[⟨1, "web", 1, [], none⟩, ⟨2, "db", 1, [], none⟩], 3⟩

/-- Store where a second template of project 1 carries the empty
alias. -/
def sEmptyAlias : Store := ⟨[⟨1, "web", 1, [], none⟩, ⟨2, "", 1, [], none⟩], 3⟩

/-- Counterexample to C7 as stated: renaming template 1 of project 1
to the empty alias succeeds as a silent no-op although another
template of the project, with identifier 2, currently holds the empty
alias, so success is not equivalent to absence of another holder for
every alias B. -/
theorem C7_counterexample :
    (update_template sEmptyAlias projOne 1 (some "") none).1 =
      .ok ⟨1, "web", 1, [], none⟩ ∧
    alias_exists_in_project sEmptyAlias 1 "" (some 1) = true :=
  ⟨rfl, rfl⟩

/-- C7 amended: for every non-empty alias B, renaming succeeds exactly
when no other template of the project holds B, the check excluding the
identifier of the renamed row; and renaming to the current alias is a
no-op success that changes nothing. The empty-alias case is excluded
because the truthiness guard skips it. -/
theorem C7_amended_rename_exclude_self :
    ∀ (s : Store) (proj : Project) (tid : Nat) (T : Template) (B : String),
      s.rows.find? (fun r => r.id == tid && r.project_id == proj.id) = some T →
      PairUnique s → IdsOk s → B ≠ "" →
      ((∃ t, (update_template s proj tid (some B) none).1 = .ok t) ↔
        alias_exists_in_project s proj.id B (some tid) = false) ∧
      (B = T.alias → update_template s proj tid (some B) none = (.ok T, s)) := by
  intro s proj tid T B hf hU hI hB
  have hTmem : T ∈ s.rows := List.mem_of_find?_eq_some hf
  have hTpred := List.find?_some hf
  rw [Bool.and_eq_true, beq_iff_eq, beq_iff_eq] at hTpred
  obtain ⟨hTid, hTproj⟩ := hTpred
  have hTpos : T.id ≠ 0 := by
    have := hI.2 T hTmem
    omega
  have htid0 : tid ≠ 0 := hTid ▸ hTpos
  have hBb : (B != "") = true := by simpa using hB
  by_cases hBal : B = T.alias
  · have hax : alias_exists_in_project s proj.id B (some tid) = false := by
      by_contra hax
      rw [Bool.not_eq_false] at hax
      obtain ⟨r, hr, hrp, hra, hrid⟩ :=
        (alias_exists_some_iff s proj.id B tid htid0).mp hax
      by_cases hrT : r = T
      · rw [hrT] at hrid
        exact hrid hTid
      · have hRel := hU.forall
          (fun x y hxy => hxy.imp Ne.symm Ne.symm) hr hTmem hrT
        rcases hRel with hne | hne
        · exact hne (hrp.trans hTproj.symm)
        · exact hne (hra.trans hBal)
    have hnb : (B != T.alias) = false := by simp [hBal]
    have hmap := map_replace_self (ids_unique_replace hI hTmem)
    have hres : update_template s proj tid (some B) none = (.ok T, s) := by
      simp [update_template, hf, hnb, hmap]
    refine ⟨?_, fun _ => hres⟩
    rw [hres]
    simp [hax]
  · have hnb : (B != T.alias) = true := by simpa using hBal
    refine ⟨?_, fun hcontra => absurd hcontra hBal⟩
    by_cases hex : alias_exists_in_project s proj.id B (some T.id) = true
    · have hex2 : alias_exists_in_project s proj.id B (some tid) = true := by
        rw [← hTid]
        exact hex
      simp [update_template, hf, hBb, hnb, hex, hex2]
    · rw [Bool.not_eq_true] at hex
      have hex2 : alias_exists_in_project s proj.id B (some tid) = false := by
        rw [← hTid]
        exact hex
      simp [update_template, hf, hBb, hnb, hex, hex2]

/-- Witness for C7 amended: renaming template 1 of the two-template
store to the free alias api. -/
theorem C7_amended_rename_exclude_self_witness :
    ((∃ t, (update_template sRename projOne 1 (some "api") none).1 = .ok t) ↔
      alias_exists_in_project sRename 1 "api" (some 1) = false) ∧
    ("api" = (⟨1, "web", 1, [], none⟩ : Template).alias →
      update_template sRename projOne 1 (some "api") none =
        (.ok ⟨1, "web", 1, [], none⟩, sRename)) :=
  C7_amended_rename_exclude_self sRename projOne 1 ⟨1, "web", 1, [], none⟩
    "api" (by rfl) (by decide) (by decide) (by decide)

/-- Counterexample to C8 as stated: a create request with the empty
alias is not rejected by validation; it succeeds, reaching the store
and committing a row whose alias is empty, so the store is changed. -/
theorem C8_counterexample :
    create_template ⟨[], 1⟩ projOne "" [] none true =
      (.ok ⟨1, "", 1, [], none⟩, ⟨[⟨1, "", 1, [], none⟩], 2⟩) := rfl

/-- C8 amended: no syntactic validation of the alias is performed; a
create request with the empty alias follows the ordinary path, passing
the existence pre-check whenever the pair of project and empty alias
is free and committing a row carrying the empty alias. -/
theorem C8_amended_no_alias_validation :
    ∀ (s : Store) (proj : Project) (cfg : List (String × String))
      (dfc : Option String),
      hasProjectAlias s.rows proj.id "" = false →
      create_template s proj "" cfg dfc true =
        (.ok (⟨s.nextId, "", proj.id, cfg, dfc⟩ : Template),
         ⟨s.rows ++ [⟨s.nextId, "", proj.id, cfg, dfc⟩], s.nextId + 1⟩) := by
  intro s proj cfg dfc h
  simp [create_template, create_template_from, insertRow,
    alias_exists_none_eq, h]

/-- Witness for C8 amended: the empty alias is accepted on the empty
store. -/
theorem C8_amended_no_alias_validation_witness :
    create_template ⟨[], 1⟩ projOne "" [] none true =
      (.ok (⟨1, "", 1, [], none⟩ : Template),
       ⟨([] : List Template) ++ [⟨1, "", 1, [], none⟩], 2⟩) :=
  C8_amended_no_alias_validation ⟨[], 1⟩ projOne [] none (by rfl)

/-- Counterexample to C9 as stated: when start_build raises, the
create fails as a whole with the propagated exception and no Template
row is committed; afterwards the alias does not resolve, contradicting
the claim that the row still exists with a degraded status. -/
theorem C9_counterexample :
    create_template ⟨[], 1⟩ projOne "web" [] none false =
      (.error .startBuildRaised, ⟨[], 1⟩) ∧
    get_by_alias (create_template ⟨[], 1⟩ projOne "web" [] none false).2
      projOne "web" = none :=
  ⟨rfl, rfl⟩

/-- C9 amended: a failure of the build dispatch aborts the creation:
start_build is invoked between flush and commit, its exception
propagates out of create_template uncaught, the row is never
committed, and the committed store is exactly the one before the
call; no separate dispatch-error outcome or failed-status degradation
exists. -/
theorem C9_amended_dispatch_failure_aborts_create :
    ∀ (s : Store) (proj : Project) (a : String)
      (cfg : List (String × String)) (dfc : Option String),
      hasProjectAlias s.rows proj.id a = false →
      create_template s proj a cfg dfc false = (.error .startBuildRaised, s) := by
  intro s proj a cfg dfc h
  simp [create_template, create_template_from, insertRow,
    alias_exists_none_eq, h]

/-- Witness for C9 amended: dispatch failure on the empty store. -/
theorem C9_amended_dispatch_failure_aborts_create_witness :
    create_template ⟨[], 1⟩ projOne "web" [] none false =
      (.error .startBuildRaised, ⟨[], 1⟩) :=
  C9_amended_dispatch_failure_aborts_create ⟨[], 1⟩ projOne "web" [] none
    (by rfl)

/-- C10: update_template treats falsy arguments as not supplied: with
the empty string for alias, the empty mapping for config, or both, the
update succeeds and returns the row and the store completely
unchanged. -/
theorem C10_falsy_update_args_ignored :
    ∀ (s : Store) (proj : Project) (tid : Nat) (T : Template),
      s.rows.find? (fun r => r.id == tid && r.project_id == proj.id) = some T →
      IdsOk s →
      update_template s proj tid (some "") (some []) = (.ok T, s) ∧
      update_template s proj tid (some "") none = (.ok T, s) ∧
      update_template s proj tid none (some []) = (.ok T, s) := by
  intro s proj tid T hf hI
  have hmap := map_replace_self
    (ids_unique_replace hI (List.mem_of_find?_eq_some hf))
  refine ⟨?_, ?_, ?_⟩ <;> simp [update_template, hf, hmap]

/-- Witness for C10: falsy arguments leave the concrete two-template
store untouched. -/
theorem C10_falsy_update_args_ignored_witness :
    update_template sRename projOne 1 (some "") (some []) =
      (.ok ⟨1, "web", 1, [], none⟩, sRename) ∧
    update_template sRename projOne 1 (some "") none =
      (.ok ⟨1, "web", 1, [], none⟩, sRename) ∧
    update_template sRename projOne 1 none (some []) =
      (.ok ⟨1, "web", 1, [], none⟩, sRename) :=
  C10_falsy_update_args_ignored sRename projOne 1 ⟨1, "web", 1, [], none⟩
    (by rfl) (by decide)

end TemplateRegistry
